import Mathlib

/-!
Formal model of the GerGrid radio-coverage generator.

The definitions below are a shallow embedding of the two Python source
files `generate_arcgis_coverage.py` and `radio_coverage_ub.py`:
floating-point arithmetic is modelled over the reals, `np.log10` as
`Real.logb 10`, `np.sqrt` as `Real.sqrt`, `np.cos`/`np.radians` as
`Real.cos` and degree-to-radian conversion, Python lists / numpy
matrices as Lean lists, and the imperative append loops as left folds
that append to an accumulator.  The theorems then settle the spec's
claims against these definitions.
-/

open Real

noncomputable section

/-- Model of `np.log10`. -/
def log10 (x : ℝ) : ℝ := Real.logb 10 x

/-- Mobile-antenna height correction factor, from line 12 of
`generate_arcgis_coverage.py` (the identical expression also appears in
`hata_model` in `radio_coverage_ub.py`). -/
def a_hm (rx_height freq_mhz : ℝ) : ℝ :=
  (1.1 * log10 freq_mhz - 0.7) * rx_height - (1.56 * log10 freq_mhz - 0.8)

/-- Embedding of `hata_okahamaru_model` (`generate_arcgis_coverage.py`,
lines 6-26): returns the pair (L_hata, okahamaru_error). -/
def hata_okahamaru_model (tx_height rx_height freq_mhz distance_km : ℝ) : ℝ × ℝ :=
  (69.55 + 26.16 * log10 freq_mhz
     - 13.82 * log10 tx_height
     - a_hm rx_height freq_mhz
     + (44.9 - 6.55 * log10 tx_height) * log10 distance_km,
   2.0 + 0.5 * log10 distance_km + 0.3 * log10 (freq_mhz / 900))

/-- Embedding of `hata_model` (`radio_coverage_ub.py`, lines 123-133),
written out independently from its own source text. -/
def hata_model (tx_height rx_height freq_mhz distance_km : ℝ) : ℝ :=
  let ahm := (1.1 * log10 freq_mhz - 0.7) * rx_height - (1.56 * log10 freq_mhz - 0.8)
  69.55 + 26.16 * log10 freq_mhz
    - 13.82 * log10 tx_height
    - ahm
    + (44.9 - 6.55 * log10 tx_height) * log10 distance_km

/-- Model of `np.radians`. -/
def radians (x : ℝ) : ℝ := x * Real.pi / 180

/-- The projection constant used by both the grid generator and the
distance computation (111 km per degree of latitude). -/
def km_per_deg : ℝ := 111

/-- Raw planar-approximation distance from the tower to a grid point,
before the 0.01 km floor (`generate_arcgis_coverage.py`, lines 49-52). -/
def rawDistance (tower_lat tower_lon lat lon : ℝ) : ℝ :=
  Real.sqrt (((lat - tower_lat) * km_per_deg) ^ 2
    + ((lon - tower_lon) * km_per_deg * Real.cos (radians tower_lat)) ^ 2)

/-- Environment classification from distance
(`generate_arcgis_coverage.py`, lines 67-72). -/
def env_type (distance_km : ℝ) : String :=
  if distance_km < 2 then "Urban"
  else if distance_km < 5 then "Suburban"
  else "Rural"

/-- The per-point record built inside `calculate_coverage_for_tower`
(lines 74-82 of `generate_arcgis_coverage.py`), before the tower
metadata is merged in. -/
structure CoveragePoint where
  latitude : ℝ
  longitude : ℝ
  distance_km : ℝ
  path_loss_db : ℝ
  signal_strength_dbm : ℝ
  okahamaru_error_db : ℝ
  environment_type : String

/-- Loop body of `calculate_coverage_for_tower`
(`generate_arcgis_coverage.py`, lines 45-82): distance with its 0.01 km
floor, path loss and error from the model, received power by direct
subtraction, environment label from distance. -/
def mkCoveragePoint (tower_lat tower_lon tower_height tx_power freq_mhz lat lon : ℝ) :
    CoveragePoint :=
  let raw := rawDistance tower_lat tower_lon lat lon
  let distance_km := if raw < 0.01 then 0.01 else raw
  let rx_height : ℝ := 1.5
  let pl := hata_okahamaru_model tower_height rx_height freq_mhz distance_km
  let rx_power := tx_power - pl.1
  { latitude := lat
    longitude := lon
    distance_km := distance_km
    path_loss_db := pl.1
    signal_strength_dbm := rx_power
    okahamaru_error_db := pl.2
    environment_type := env_type distance_km }

/-- A configured tower (the dictionaries on lines 91-100 of
`generate_arcgis_coverage.py`). -/
structure Tower where
  lat : ℝ
  lon : ℝ
  height : ℝ
  power : ℝ
  freq : ℝ
  id : String
  type : String

/-- A coverage record after the tower metadata has been merged in
(`generate_arcgis_coverage.py`, lines 117-127). -/
structure FullRecord where
  point : CoveragePoint
  tower_lat : ℝ
  tower_lon : ℝ
  tower_height_m : ℝ
  tower_power_dbm : ℝ
  frequency_mhz : ℝ
  cell_id : String
  tower_type : String
  model_type : String

/-- The `point.update` step of the aggregator: attach the tower's
metadata and the fixed model tag to a coverage point. -/
def add_tower_info (t : Tower) (p : CoveragePoint) : FullRecord :=
  { point := p
    tower_lat := t.lat
    tower_lon := t.lon
    tower_height_m := t.height
    tower_power_dbm := t.power
    frequency_mhz := t.freq
    cell_id := t.id
    tower_type := t.type
    model_type := "Hata_Okahamaru" }

/-- Embedding of `calculate_coverage_for_tower`
(`generate_arcgis_coverage.py`, lines 39-84): the nested `for i` /
`for j` loops appending to `coverage_data`, with bounds
`len(grid_lats)` and `len(grid_lats[0])` and accesses
`grid_lats[i][j]`, `grid_lons[i][j]`. -/
def calculate_coverage_for_tower (tower_lat tower_lon tower_height tx_power freq_mhz : ℝ)
    (grid_lats grid_lons : List (List ℝ)) : List CoveragePoint :=
  (List.range grid_lats.length).foldl (fun acc i =>
    (List.range (grid_lats.headD []).length).foldl (fun acc2 j =>
      acc2 ++ [mkCoveragePoint tower_lat tower_lon tower_height tx_power freq_mhz
        ((grid_lats.getD i []).getD j 0) ((grid_lons.getD i []).getD j 0)]) acc) []

/-- Embedding of the aggregation loop of `generate_arcgis_coverage_csv`
(`generate_arcgis_coverage.py`, lines 107-129): for each tower in
configuration order, compute its coverage, merge the tower metadata into
every point, and extend the global list. -/
def all_coverage_data (towers : List Tower) (grid_lats grid_lons : List (List ℝ)) :
    List FullRecord :=
  towers.foldl (fun acc t =>
    acc ++ (calculate_coverage_for_tower t.lat t.lon t.height t.power t.freq
      grid_lats grid_lons).map (add_tower_info t)) []

/-- Model of `np.linspace a b n` (endpoint included; over the reals the
last point equals `b` exactly). -/
def linspace (a b : ℝ) : ℕ → List ℝ
  | 0 => []
  | 1 => [a]
  | n => List.map (fun i : ℕ => a + (i : ℝ) * ((b - a) / ((n : ℝ) - 1))) (List.range n)

/-- Model of `np.meshgrid xs ys` with the default indexing: a pair of
`len ys × len xs` matrices, the first constant along rows (`X[i][j] =
xs[j]`), the second constant along columns (`Y[i][j] = ys[i]`). -/
def meshgrid (xs ys : List ℝ) : List (List ℝ) × List (List ℝ) :=
  (ys.map (fun _ => xs), ys.map (fun y => xs.map (fun _ => y)))

/-- Embedding of `generate_coverage_grid`
(`generate_arcgis_coverage.py`, lines 28-37). -/
def generate_coverage_grid (center_lat center_lon : ℝ) (grid_size : ℕ) (area_km : ℝ) :
    List (List ℝ) × List (List ℝ) :=
  let dlat := area_km / km_per_deg
  let dlon := area_km / (km_per_deg * Real.cos (radians center_lat))
  let lats := linspace (center_lat - dlat / 2) (center_lat + dlat / 2) grid_size
  let lons := linspace (center_lon - dlon / 2) (center_lon + dlon / 2) grid_size
  meshgrid lats lons

/-- The hard-coded tower configuration
(`generate_arcgis_coverage.py`, lines 90-101). -/
def towers : List Tower :=
  [ ⟨47.9212, 106.9186, 30, 43, 900, "TOWER_001", "Communication_Tower"⟩,
    ⟨47.9250, 106.9200, 25, 40, 900, "TOWER_002", "Antenna"⟩,
    ⟨47.9180, 106.9150, 35, 45, 900, "TOWER_003", "Communication_Tower"⟩,
    ⟨47.9220, 106.9220, 20, 38, 900, "TOWER_004", "Antenna"⟩,
    ⟨47.9160, 106.9180, 40, 47, 900, "TOWER_005", "Communication_Tower"⟩,
    ⟨47.9240, 106.9160, 28, 42, 900, "TOWER_006", "Antenna"⟩,
    ⟨47.9200, 106.9200, 32, 44, 900, "TOWER_007", "Communication_Tower"⟩,
    ⟨47.9260, 106.9190, 22, 39, 900, "TOWER_008", "Antenna"⟩,
    ⟨47.9170, 106.9210, 38, 46, 900, "TOWER_009", "Communication_Tower"⟩,
    ⟨47.9230, 106.9170, 26, 41, 900, "TOWER_010", "Antenna"⟩ ]

/-- The keys of the per-point dictionary, in insertion order
(`generate_arcgis_coverage.py`, lines 74-82). -/
def coverage_point_keys : List String :=
  ["Latitude", "Longitude", "Distance_km", "Path_Loss_dB",
   "Signal_Strength_dBm", "Okahamaru_Error_dB", "Environment_Type"]

/-- The keys added by `point.update` in the aggregator, in insertion
order (`generate_arcgis_coverage.py`, lines 118-127). -/
def tower_info_keys : List String :=
  ["Tower_Lat", "Tower_Lon", "Tower_Height_m", "Tower_Power_dBm",
   "Frequency_MHz", "Cell_ID", "Tower_Type", "Model_Type"]

/-- The full key set of an assembled record, in Python dict insertion
order. -/
def record_keys : List String := coverage_point_keys ++ tower_info_keys

/-- The export column order applied by `df = df[column_order]`
(`generate_arcgis_coverage.py`, lines 135-142): every exported record
carries exactly these fields in exactly this order. -/
def column_order : List String :=
  ["Latitude", "Longitude", "Tower_Lat", "Tower_Lon", "Tower_Height_m",
   "Tower_Power_dBm", "Frequency_MHz", "Distance_km", "Path_Loss_dB",
   "Signal_Strength_dBm", "Okahamaru_Error_dB", "Cell_ID", "Tower_Type",
   "Environment_Type", "Model_Type"]

/-- The concrete scenario of the spec's testable-properties section:
tower TOWER_001 (47.9212, 106.9186, height 30 m, power 43 dBm, 900 MHz)
evaluated at a grid point exactly at the tower position. -/
def scenario_point : CoveragePoint :=
  mkCoveragePoint 47.9212 106.9186 30 43 900 47.9212 106.9186

end

/-! ## Helper lemmas -/

/-- An append-accumulating left fold is the accumulator followed by the
mapped list (shape of the inner `for j` loop). -/
theorem foldl_append_singleton {α β : Type} (g : α → β) (l : List α) :
    ∀ acc : List β, l.foldl (fun a x => a ++ [g x]) acc = acc ++ l.map g := by
  induction l with
  | nil => intro acc; simp
  | cons x xs ih => intro acc; simp [ih]

/-- An append-accumulating left fold over list-producing bodies is the
accumulator followed by the flat-mapped list (shape of the outer loops). -/
theorem foldl_append_flat {α β : Type} (f : α → List β) (l : List α) :
    ∀ acc : List β, l.foldl (fun a x => a ++ f x) acc = acc ++ l.flatMap f := by
  induction l with
  | nil => intro acc; simp
  | cons x xs ih => intro acc; simp [ih]

/-- Length of a row-major flattened block: `R` rows of `C` entries. -/
theorem length_flatMap_const {β : Type} (C : ℕ) (g : ℕ → ℕ → β) (l : List ℕ) :
    (l.flatMap (fun i => (List.range C).map (g i))).length = l.length * C := by
  induction l with
  | nil => simp
  | cons x xs ih => simp [ih, Nat.succ_mul, Nat.add_comm]

/-- The raw distance from a point to itself is zero. -/
theorem rawDistance_self (tlat tlon : ℝ) : rawDistance tlat tlon tlat tlon = 0 := by
  simp [rawDistance]

/-- A linspace always has exactly the requested number of points. -/
theorem linspace_length (a b : ℝ) (n : ℕ) : (linspace a b n).length = n := by
  match n with
  | 0 => rfl
  | 1 => rfl
  | (m + 2) =>
    rw [linspace]
    · rw [List.length_map, List.length_range]
    all_goals omega

/-! ## Claim theorems -/

/-- Claim C1 (code bug evidence): the propagation model performs no
input validation.  At `tx_height = 0` (with frequency 900 MHz, distance
1 km) it does not fail: it evaluates the logarithms anyway and returns a
numeric path-loss value (in the real-valued model, with `log 0 = 0` by
convention, the value shown below; in the Python source, `np.log10(0)`
yields `-inf` and the returned path loss is NaN).  No
configuration/input-domain error is raised, contradicting the claim. -/
theorem C1_model_returns_value_at_zero_height :
    (hata_okahamaru_model 0 1.5 900 1).1 =
      69.55 + 26.16 * log10 900 - a_hm 1.5 900 := by
  simp [hata_okahamaru_model, log10]

/-- Claim C2 (counterexample): the export column list of
`generate_arcgis_coverage_csv` is not the field list stated by the
claim — the error column is named `Okahamaru_Error_dB`, not
`Error_dB`. -/
theorem C2_counterexample :
    column_order ≠
      ["Latitude", "Longitude", "Tower_Lat", "Tower_Lon", "Tower_Height_m",
       "Tower_Power_dBm", "Frequency_MHz", "Distance_km", "Path_Loss_dB",
       "Signal_Strength_dBm", "Error_dB", "Cell_ID", "Tower_Type",
       "Environment_Type", "Model_Type"] := by
  decide

/-- Claim C2 (amended): every exported record has exactly the assembled
record's field set (a permutation of the per-point keys followed by the
tower-metadata keys), in the fixed order `Latitude, Longitude,
Tower_Lat, Tower_Lon, Tower_Height_m, Tower_Power_dBm, Frequency_MHz,
Distance_km, Path_Loss_dB, Signal_Strength_dBm, Okahamaru_Error_dB,
Cell_ID, Tower_Type, Environment_Type, Model_Type`. -/
theorem C2_export_schema :
    column_order =
      ["Latitude", "Longitude", "Tower_Lat", "Tower_Lon", "Tower_Height_m",
       "Tower_Power_dBm", "Frequency_MHz", "Distance_km", "Path_Loss_dB",
       "Signal_Strength_dBm", "Okahamaru_Error_dB", "Cell_ID", "Tower_Type",
       "Environment_Type", "Model_Type"] ∧
    column_order.Perm record_keys := by
  exact ⟨rfl, by decide⟩

/-- Claim C3: the stored distance of every coverage point is at least
0.01 km, and it is exactly 0.01 km whenever the raw
planar-approximation distance is below the floor. -/
theorem C3_distance_floor (tower_lat tower_lon tower_height tx_power freq_mhz lat lon : ℝ) :
    0.01 ≤ (mkCoveragePoint tower_lat tower_lon tower_height tx_power freq_mhz
      lat lon).distance_km ∧
    (rawDistance tower_lat tower_lon lat lon < 0.01 →
      (mkCoveragePoint tower_lat tower_lon tower_height tx_power freq_mhz
        lat lon).distance_km = 0.01) := by
  constructor
  · show 0.01 ≤ if rawDistance tower_lat tower_lon lat lon < 0.01 then 0.01
      else rawDistance tower_lat tower_lon lat lon
    split
    · exact le_refl _
    · linarith [not_lt.mp (by assumption : ¬ rawDistance tower_lat tower_lon lat lon < 0.01)]
  · intro h
    show (if rawDistance tower_lat tower_lon lat lon < 0.01 then 0.01
      else rawDistance tower_lat tower_lon lat lon) = 0.01
    rw [if_pos h]

/-- Witness for C3: a grid point coincident with the tower has raw
distance 0 < 0.01, so the stored distance is exactly the 0.01 floor. -/
theorem C3_witness :
    (mkCoveragePoint 47.9212 106.9186 30 43 900 47.9212 106.9186).distance_km = 0.01 := by
  have hraw : rawDistance 47.9212 106.9186 47.9212 106.9186 < 0.01 := by
    rw [rawDistance_self]; norm_num
  exact (C3_distance_floor 47.9212 106.9186 30 43 900 47.9212 106.9186).2 hraw

/-- Claim C4: for every coverage point, the signal strength equals the
tower power minus the path loss exactly, and the stored path loss is the
first component of the model output at the clamped distance — the error
estimate (second component) is never folded into either. -/
theorem C4_signal_strength_exact
    (tower_lat tower_lon tower_height tx_power freq_mhz lat lon : ℝ) :
    (mkCoveragePoint tower_lat tower_lon tower_height tx_power freq_mhz
      lat lon).signal_strength_dbm =
      tx_power - (mkCoveragePoint tower_lat tower_lon tower_height tx_power freq_mhz
        lat lon).path_loss_db ∧
    (mkCoveragePoint tower_lat tower_lon tower_height tx_power freq_mhz
      lat lon).path_loss_db =
      (hata_okahamaru_model tower_height 1.5 freq_mhz
        (mkCoveragePoint tower_lat tower_lon tower_height tx_power freq_mhz
          lat lon).distance_km).1 := by
  exact ⟨rfl, rfl⟩

/-- Claim C5: environment classification is a step function of distance
with lower-inclusive band edges: [0, 2) is Urban, [2, 5) is Suburban,
[5, ∞) is Rural. -/
theorem C5_env_type_bands (d : ℝ) :
    (0 ≤ d → d < 2 → env_type d = "Urban") ∧
    (2 ≤ d → d < 5 → env_type d = "Suburban") ∧
    (5 ≤ d → env_type d = "Rural") := by
  refine ⟨fun _ h2 => ?_, fun h2 h5 => ?_, fun h5 => ?_⟩
  · rw [env_type, if_pos h2]
  · rw [env_type, if_neg (not_lt.mpr h2), if_pos h5]
  · rw [env_type, if_neg (not_lt.mpr (by linarith)), if_neg (not_lt.mpr h5)]

/-- Witness for C5: the boundary distances 2.0 and 5.0 fall in the
upper band (Suburban and Rural respectively), and 1.999 is Urban. -/
theorem C5_witness :
    env_type 1.999 = "Urban" ∧ env_type 2 = "Suburban" ∧ env_type 5 = "Rural" :=
  ⟨(C5_env_type_bands 1.999).1 (by norm_num) (by norm_num),
   (C5_env_type_bands 2).2.1 (le_refl 2) (by norm_num),
   (C5_env_type_bands 5).2.2 (le_refl 5)⟩

/-- Claim C9: the core computation is deterministic — equal tower lists
and equal grids give equal datasets, and the grid generator gives equal
coordinate-matrix pairs on equal arguments. -/
theorem C9_deterministic (ts1 ts2 : List Tower) (gl1 gl2 gn1 gn2 : List (List ℝ))
    (clat1 clat2 clon1 clon2 : ℝ) (n1 n2 : ℕ) (a1 a2 : ℝ)
    (hts : ts1 = ts2) (hgl : gl1 = gl2) (hgn : gn1 = gn2)
    (hclat : clat1 = clat2) (hclon : clon1 = clon2) (hn : n1 = n2) (ha : a1 = a2) :
    all_coverage_data ts1 gl1 gn1 = all_coverage_data ts2 gl2 gn2 ∧
    generate_coverage_grid clat1 clon1 n1 a1 = generate_coverage_grid clat2 clon2 n2 a2 := by
  subst hts; subst hgl; subst hgn; subst hclat; subst hclon; subst hn; subst ha
  exact ⟨rfl, rfl⟩

/-- Witness for C9: determinism instantiated on the configured tower
list and the configured grid-generator arguments. -/
theorem C9_witness :
    all_coverage_data towers [[47.9212]] [[106.9186]] =
      all_coverage_data towers [[47.9212]] [[106.9186]] ∧
    generate_coverage_grid 47.9212 106.9186 30 15 =
      generate_coverage_grid 47.9212 106.9186 30 15 :=
  C9_deterministic towers towers [[47.9212]] [[47.9212]] [[106.9186]] [[106.9186]]
    47.9212 47.9212 106.9186 106.9186 30 30 15 15 rfl rfl rfl rfl rfl rfl rfl

/-- Claim C10: the standalone `hata_model` of `radio_coverage_ub.py`
computes exactly the first component of `hata_okahamaru_model` of
`generate_arcgis_coverage.py`; the added error term never changes the
path-loss value. -/
theorem C10_hata_models_agree (tx_height rx_height freq_mhz distance_km : ℝ)
    (htx : 0 < tx_height) (hf : 0 < freq_mhz) (hd : 0 < distance_km) :
    hata_model tx_height rx_height freq_mhz distance_km =
      (hata_okahamaru_model tx_height rx_height freq_mhz distance_km).1 := by
  rw [hata_model, hata_okahamaru_model, a_hm]

/-- Witness for C10: the two path-loss implementations agree at the
configured scenario parameters (30 m, 1.5 m, 900 MHz, 1 km). -/
theorem C10_witness :
    hata_model 30 1.5 900 1 = (hata_okahamaru_model 30 1.5 900 1).1 :=
  C10_hata_models_agree 30 1.5 900 1 (by norm_num) (by norm_num) (by norm_num)

/-- Length of a flat map whose blocks all have the same length. -/
theorem length_flatMap_of_const {α β : Type} (F : α → List β) (n : ℕ)
    (h : ∀ a, (F a).length = n) (l : List α) : (l.flatMap F).length = l.length * n := by
  induction l with
  | nil => simp
  | cons x xs ih => simp [h, ih, Nat.succ_mul, Nat.add_comm]

/-- The per-tower coverage loop, rewritten as an explicit row-major
flat map over the grid indices. -/
theorem calculate_coverage_eq (tower_lat tower_lon tower_height tx_power freq_mhz : ℝ)
    (gl gn : List (List ℝ)) :
    calculate_coverage_for_tower tower_lat tower_lon tower_height tx_power freq_mhz gl gn =
      (List.range gl.length).flatMap (fun i =>
        (List.range (gl.headD []).length).map (fun j =>
          mkCoveragePoint tower_lat tower_lon tower_height tx_power freq_mhz
            ((gl.getD i []).getD j 0) ((gn.getD i []).getD j 0))) := by
  simp only [calculate_coverage_for_tower]
  simp only [foldl_append_singleton]
  rw [foldl_append_flat]
  simp

/-- The aggregator, rewritten as a tower-major, row-major flat map. -/
theorem all_coverage_data_eq (ts : List Tower) (gl gn : List (List ℝ)) :
    all_coverage_data ts gl gn = ts.flatMap (fun t =>
      (List.range gl.length).flatMap (fun i =>
        (List.range (gl.headD []).length).map (fun j =>
          add_tower_info t (mkCoveragePoint t.lat t.lon t.height t.power t.freq
            ((gl.getD i []).getD j 0) ((gn.getD i []).getD j 0))))) := by
  simp only [all_coverage_data, calculate_coverage_eq]
  rw [foldl_append_flat]
  simp [List.map_flatMap, List.map_map, Function.comp_def]

/-- Claim C6: for T towers and an N×N grid, the aggregator produces
exactly T·N² records, and the dataset is exactly the tower-major,
row-major enumeration of all (tower, grid point) pairs — nothing is
dropped or deduplicated, and the order is the outer loop over towers in
configuration order with the inner loop over grid points in row-major
order. -/
theorem C6_dataset_shape (ts : List Tower) (gl gn : List (List ℝ)) (N : ℕ)
    (h1 : gl.length = N) (h2 : (gl.headD []).length = N) :
    (all_coverage_data ts gl gn).length = ts.length * N ^ 2 ∧
    all_coverage_data ts gl gn = ts.flatMap (fun t =>
      (List.range N).flatMap (fun i => (List.range N).map (fun j =>
        add_tower_info t (mkCoveragePoint t.lat t.lon t.height t.power t.freq
          ((gl.getD i []).getD j 0) ((gn.getD i []).getD j 0))))) := by
  have horder := all_coverage_data_eq ts gl gn
  rw [h1, h2] at horder
  refine ⟨?_, horder⟩
  rw [horder]
  rw [length_flatMap_of_const _ (N * N) (fun t => ?_) ts]
  · rw [pow_two]
  · rw [length_flatMap_const N _ (List.range N), List.length_range]

/-- Witness for C6: on the configured 30×30 grid around the city
center, the ten configured towers produce exactly 10·30² records. -/
theorem C6_witness :
    (all_coverage_data towers (generate_coverage_grid 47.9212 106.9186 30 15).1
      (generate_coverage_grid 47.9212 106.9186 30 15).2).length = towers.length * 30 ^ 2 :=
  (C6_dataset_shape towers (generate_coverage_grid 47.9212 106.9186 30 15).1
    (generate_coverage_grid 47.9212 106.9186 30 15).2 30 rfl rfl).1

/-- Rational lower bound on log10 of 3, from 10^31 < 3^65. -/
theorem log10_3_gt : (31:ℝ)/65 < log10 3 := by
  rw [log10, Real.logb, div_lt_div_iff₀ (by norm_num) (Real.log_pos (by norm_num))]
  have h := Real.log_lt_log (by positivity : (0:ℝ) < 10 ^ (31:ℕ))
    (by norm_num : ((10:ℝ) ^ (31:ℕ)) < 3 ^ (65:ℕ))
  rw [Real.log_pow, Real.log_pow] at h
  push_cast at h
  linarith

/-- Rational upper bound on log10 of 3, from 3^44 < 10^21. -/
theorem log10_3_lt : log10 3 < (21:ℝ)/44 := by
  rw [log10, Real.logb, div_lt_div_iff₀ (Real.log_pos (by norm_num)) (by norm_num)]
  have h := Real.log_lt_log (by positivity : (0:ℝ) < 3 ^ (44:ℕ))
    (by norm_num : ((3:ℝ) ^ (44:ℕ)) < 10 ^ (21:ℕ))
  rw [Real.log_pow, Real.log_pow] at h
  push_cast at h
  linarith

/-- Decomposition of log10 of 900 over log10 of 3. -/
theorem log10_900 : log10 900 = 2 + 2 * log10 3 := by
  simp only [log10]
  rw [show (900:ℝ) = 3 ^ (2:ℕ) * 10 ^ (2:ℕ) by norm_num,
      Real.logb_mul (by norm_num) (by norm_num),
      Real.logb_pow, Real.logb_pow, Real.logb_self_eq_one (by norm_num)]
  push_cast
  ring

/-- Decomposition of log10 of 30 over log10 of 3. -/
theorem log10_30 : log10 30 = 1 + log10 3 := by
  simp only [log10]
  rw [show (30:ℝ) = 3 * 10 by norm_num,
      Real.logb_mul (by norm_num) (by norm_num),
      Real.logb_self_eq_one (by norm_num)]
  ring

/-- Exact value of log10 at the 0.01 km distance floor. -/
theorem log10_centi : log10 (0.01 : ℝ) = -2 := by
  simp only [log10]
  rw [show (0.01:ℝ) = ((10:ℝ) ^ (2:ℕ))⁻¹ by norm_num,
      Real.logb_inv, Real.logb_pow, Real.logb_self_eq_one (by norm_num)]
  push_cast
  ring

/-- Claim C7 (counterexample): path loss is not non-decreasing in
distance for every positive tx_height — at tx_height = 10^7 m the
distance coefficient 44.9 − 6.55·log10(tx_height) is negative, so the
path loss at 10 km is strictly below the path loss at 1 km. -/
theorem C7_counterexample :
    (hata_okahamaru_model ((10:ℝ) ^ (7:ℕ)) 1.5 900 10).1 <
      (hata_okahamaru_model ((10:ℝ) ^ (7:ℕ)) 1.5 900 1).1 := by
  have h7 : log10 ((10:ℝ) ^ (7:ℕ)) = 7 := by
    rw [log10, Real.logb_pow, Real.logb_self_eq_one (by norm_num)]
    norm_num
  have h10 : log10 (10:ℝ) = 1 := by
    rw [log10, Real.logb_self_eq_one (by norm_num)]
  have h1 : log10 (1:ℝ) = 0 := by
    rw [log10, Real.logb_one]
  simp only [hata_okahamaru_model]
  rw [h7, h10, h1]
  linarith

/-- Claim C7 (amended): for every fixed tx_height > 0 with
6.55·log10(tx_height) ≤ 44.9 (equivalently tx_height ≤ 10^(44.9/6.55),
which covers every physical antenna height) and every frequency > 0,
path loss is non-decreasing in distance over distances ≥ 0.01 km. -/
theorem C7_path_loss_monotone (tx_height rx_height freq_mhz d1 d2 : ℝ)
    (htx : 0 < tx_height) (hcoef : 6.55 * log10 tx_height ≤ 44.9)
    (hf : 0 < freq_mhz) (hd1 : 0.01 ≤ d1) (hd : d1 ≤ d2) :
    (hata_okahamaru_model tx_height rx_height freq_mhz d1).1 ≤
      (hata_okahamaru_model tx_height rx_height freq_mhz d2).1 := by
  have hd1pos : (0:ℝ) < d1 := by linarith
  have hlog : log10 d1 ≤ log10 d2 := by
    rw [log10, log10]
    exact Real.logb_le_logb_of_le (by norm_num) hd1pos hd
  have hB : (0:ℝ) ≤ 44.9 - 6.55 * log10 tx_height := by linarith
  simp only [hata_okahamaru_model]
  nlinarith [mul_le_mul_of_nonneg_left hlog hB]

/-- Witness for C7 (amended): monotonicity instantiated at the
configured 30 m tower, 900 MHz, between 1 km and 10 km. -/
theorem C7_witness :
    (hata_okahamaru_model 30 1.5 900 1).1 ≤ (hata_okahamaru_model 30 1.5 900 10).1 :=
  C7_path_loss_monotone 30 1.5 900 1 10 (by norm_num)
    (by rw [log10_30]; nlinarith [log10_3_lt]) (by norm_num) (by norm_num) (by norm_num)

/-- Claim C8: for tower TOWER_001 (47.9212, 106.9186, 30 m, 43 dBm,
900 MHz) evaluated at a grid point exactly at the tower position, the
coverage point has distance exactly 0.01 km (the floor), a_hm within
0.0005 of 0.0159, path loss within 0.03 dB of 55.94 dB, signal strength
within 0.03 dBm of −12.94 dBm, error exactly 1.00 dB, and environment
Urban. -/
theorem C8_concrete_scenario :
    scenario_point.distance_km = 0.01 ∧
    |a_hm 1.5 900 - 0.0159| < 0.0005 ∧
    |scenario_point.path_loss_db - 55.94| < 0.03 ∧
    |scenario_point.signal_strength_dbm - (-12.94)| < 0.03 ∧
    scenario_point.okahamaru_error_db = 1 ∧
    scenario_point.environment_type = "Urban" := by
  have hy1 := log10_3_gt
  have hy2 := log10_3_lt
  have hahm : a_hm 1.5 900 = -0.07 + 0.18 * log10 3 := by
    rw [a_hm, log10_900]; ring
  have hraw : rawDistance 47.9212 106.9186 47.9212 106.9186 = 0 :=
    rawDistance_self 47.9212 106.9186
  have hif : (if rawDistance 47.9212 106.9186 47.9212 106.9186 < 0.01 then (0.01:ℝ)
      else rawDistance 47.9212 106.9186 47.9212 106.9186) = 0.01 := by
    rw [hraw]; norm_num
  have hdist : scenario_point.distance_km = 0.01 := hif
  have hpl : scenario_point.path_loss_db = (hata_okahamaru_model 30 1.5 900 (0.01:ℝ)).1 := by
    show (hata_okahamaru_model 30 1.5 900
      (if rawDistance 47.9212 106.9186 47.9212 106.9186 < 0.01 then (0.01:ℝ)
        else rawDistance 47.9212 106.9186 47.9212 106.9186)).1 = _
    rw [hif]
  have hplv : scenario_point.path_loss_db = 31.42 + 51.42 * log10 3 := by
    rw [hpl]
    show 69.55 + 26.16 * log10 900 - 13.82 * log10 30 - a_hm 1.5 900
      + (44.9 - 6.55 * log10 30) * log10 0.01 = _
    rw [log10_900, log10_30, log10_centi, hahm]; ring
  have hss : scenario_point.signal_strength_dbm = 43 - scenario_point.path_loss_db := rfl
  have herr : scenario_point.okahamaru_error_db =
      2.0 + 0.5 * log10 (0.01:ℝ) + 0.3 * log10 ((900:ℝ)/900) := by
    show (hata_okahamaru_model 30 1.5 900
      (if rawDistance 47.9212 106.9186 47.9212 106.9186 < 0.01 then (0.01:ℝ)
        else rawDistance 47.9212 106.9186 47.9212 106.9186)).2 = _
    rw [hif]
    rfl
  refine ⟨hdist, ?_, ?_, ?_, ?_, ?_⟩
  · rw [hahm, abs_lt]
    constructor <;> linarith
  · rw [hplv, abs_lt]
    constructor <;> linarith
  · rw [hss, hplv, abs_lt]
    constructor <;> linarith
  · rw [herr, log10_centi, show ((900:ℝ)/900) = 1 by norm_num]
    rw [log10, Real.logb_one]
    norm_num
  · show env_type (if rawDistance 47.9212 106.9186 47.9212 106.9186 < 0.01 then (0.01:ℝ)
      else rawDistance 47.9212 106.9186 47.9212 106.9186) = "Urban"
    rw [hif, env_type, if_pos (by norm_num : (0.01:ℝ) < 2)]
